import Mathlib

/-!
Verification of the AZUS standalone upload pipeline.

This file gives a shallow embedding, in Lean 4, of the publication pipeline
implemented in `standalone_tasks.py`, `standalone_uploader.py` and
`models/audiomoth.py`, and proves (or refutes) the specified properties of
the Upload Tracker, the File-Set Resolver, the Metadata Builder's date
entries, the Upload Driver's call sequencing, and the Orchestrator's
result routing and statistics.

Modelling conventions:
  * Python strings are Lean `String`; Python truthiness of an optional
    string (`None` and `""` are falsy) is the function `truthy`.
  * The tracker's backing file is modelled at line granularity: each
    `mark_uploaded` call writes one line (exact for paths containing no
    newline character).
  * Filesystem paths are modelled as a directory plus a basename
    (`FPath`), mirroring `dataset_dir / filename` and `Path(p).name`.
  * HTTP traffic is modelled by scripted responses and by traces of the
    calls the code issues, so that ordering and never-called properties
    become statements about lists.

The file is organised as: all definitions first, then all theorems.
-/

/-! # Definitions -/

/-! ## Python string primitives -/

/-- Python truthiness of an `Optional[str]`: `None` and `""` are falsy. -/
def truthy : Option String → Bool
  | none => false
  | some s => s != ""

/-- The characters removed by Python's `str.strip()` (ASCII whitespace). -/
def isWsChar (c : Char) : Bool :=
  c == ' ' || c == '\t' || c == '\n' || c == '\r' || c == '\x0b' || c == '\x0c'

/-- Python's `str.strip()`: remove leading and trailing whitespace. -/
def pyStrip (s : String) : String :=
  ⟨((s.toList.dropWhile isWsChar).reverse.dropWhile isWsChar).reverse⟩

/-! ## Upload Tracker (`standalone_tasks.py`, class `UploadTracker`) -/

/-- State of an `UploadTracker` instance together with its backing file.
`fileLines` is the tracker file's content as a list of lines (each
`mark_uploaded` appends the line `f"{file_path}\n"`); `uploadedFiles` is
the in-memory `uploaded_files` set. -/
structure TrackerState where
  fileLines : List String
  uploadedFiles : List String
  deriving Repr, DecidableEq

/-- Model of `UploadTracker._load`: read the tracker file and keep the stripped,
non-empty lines (`{line.strip() for line in fh if line.strip()}`). -/
def trackerLoad (fileLines : List String) : List String :=
  (fileLines.map pyStrip).filter (fun l => l != "")

/-- Model of `UploadTracker.__init__`: load the in-memory set from the backing file. -/
def trackerInit (fileLines : List String) : TrackerState :=
  { fileLines := fileLines, uploadedFiles := trackerLoad fileLines }

/-- Model of `UploadTracker.is_uploaded`: membership in the in-memory set. -/
def is_uploaded (st : TrackerState) (p : String) : Bool :=
  st.uploadedFiles.contains p

/-- Model of `UploadTracker.mark_uploaded`: add the path to the in-memory set and
append `f"{file_path}\n"` (one line) to the backing file. -/
def mark_uploaded (st : TrackerState) (p : String) : TrackerState :=
  { fileLines := st.fileLines ++ [p], uploadedFiles := p :: st.uploadedFiles }

/-- Apply a sequence of further `mark_uploaded` calls (the only mutating
tracker operation) to a tracker state. -/
def applyMarks (st : TrackerState) (ps : List String) : TrackerState :=
  ps.foldl mark_uploaded st

/-! ## Metadata Builder: recording-date entries
(`standalone_tasks.py`, `get_draft_config`, the `dates` block) -/

/-- One entry of the draft metadata's `dates` list
(`Date(date=..., type=DateType(id=...), description=...)`). -/
structure DateEntry where
  date : String
  typeId : String
  description : String
  deriving Repr, DecidableEq

/-- The recording-date entries built by `get_draft_config` from the
collector's `first_recording_day` / `last_recording_day` fields:

    if first_day and last_day:
        if first_day == last_day: one single-day entry
        else:                     one interval entry "first/last"
    elif first_day:               one single-day entry
    (no other branch — nothing is emitted when only last_day is set)
-/
def draftConfigDates (firstDay lastDay : Option String) : List DateEntry :=
  if truthy firstDay && truthy lastDay then
    if firstDay == lastDay then
      [⟨firstDay.getD "", "collected", "Day of recording"⟩]
    else
      [⟨firstDay.getD "" ++ "/" ++ lastDay.getD "", "collected",
        "Recording period"⟩]
  else if truthy firstDay then
    [⟨firstDay.getD "", "collected", "Day of recording"⟩]
  else
    []

/-! ## Python exceptions -/

/-- The exceptions / error classes the pipeline raises or classifies. -/
inductive PyErr where
  | valueError (msg : String)
  | fileNotFound (msg : String)
  | httpError (msg : String)
  | requestExc (msg : String)
  | other (name : String) (msg : String)
  deriving Repr, DecidableEq

/-- The error-type tag attached to a failure result: `"HTTPError"` for
`HTTPError`, `"RequestException"` for `RequestException`, otherwise the
exception's own class name (`type(exc).__name__`). -/
def PyErr.typeName : PyErr → String
  | valueError _ => "ValueError"
  | fileNotFound _ => "FileNotFoundError"
  | httpError _ => "HTTPError"
  | requestExc _ => "RequestException"
  | other n _ => n

/-! ## File-Set Resolver
(`standalone_tasks.py`: `read_upload_manifest`, `find_dataset_files`,
`create_upload_data`; `models/audiomoth.py`: `UploadData.all_files`) -/

/-- A filesystem path as a directory plus a basename, mirroring
`dataset_dir / filename` and `Path(p).name`. -/
structure FPath where
  dir : String
  name : String
  deriving Repr, DecidableEq

/-- Render an `FPath` as a path string. -/
def pathStr (p : FPath) : String :=
  p.dir ++ "/" ++ p.name

/-- An upload manifest CSV: whether the `File Name` column is present and
the cells of that column in row order.  (Python reads the rows into a
dict keyed by filename; key uniqueness is captured by `Nodup` hypotheses
where it matters.) -/
structure Manifest where
  hasFileNameColumn : Bool
  rows : List String
  deriving Repr, DecidableEq

/-- Model of `read_upload_manifest`: strip each `File Name` cell and drop empties;
resolve each listed filename against the dataset directory; raise
`FileNotFoundError` if any listed file is missing, else return the
filename → path mapping. -/
def read_upload_manifest (m : Manifest) (datasetDir : String)
    (fsys : FPath → Bool) : Except PyErr (List (String × Option FPath)) :=
  if m.hasFileNameColumn = false then
    .error (.valueError "Manifest CSV missing File Name column")
  else
    let filesToUpload := (m.rows.map pyStrip).filter (fun f => f != "")
    let foundFiles := filesToUpload.map (fun fn =>
      (fn, if fsys ⟨datasetDir, fn⟩ then some (⟨datasetDir, fn⟩ : FPath)
           else none))
    let missingFiles := (foundFiles.filter (fun e => e.2 == none)).map Prod.fst
    if missingFiles.isEmpty then .ok foundFiles
    else .error (.fileNotFound "Missing files listed in manifest")

/-- The default-file-list fallback of `find_dataset_files`: resolve each
configured filename, mapping missing ones to `None` (only a warning is
logged). -/
def defaultDiscovery (requiredFiles : List String) (datasetDir : String)
    (fsys : FPath → Bool) : List (String × Option FPath) :=
  requiredFiles.map (fun fn =>
    (fn, if fsys ⟨datasetDir, fn⟩ then some (⟨datasetDir, fn⟩ : FPath)
         else none))

/-- Model of `find_dataset_files`: fail if the ZIP itself is absent; use the
dataset's upload manifest when one exists alongside the archive,
otherwise fall back to the configured default file list.  `manifest`
is the parsed `ESID_XXX_to_upload.csv` when that file exists. -/
def find_dataset_files (zipPath : FPath) (manifest : Option Manifest)
    (requiredFiles : List String) (fsys : FPath → Bool) :
    Except PyErr (List (String × Option FPath)) :=
  if fsys zipPath = false then
    .error (.fileNotFound "ZIP file not found")
  else
    match manifest with
    | some m => read_upload_manifest m zipPath.dir fsys
    | none => .ok (defaultDiscovery requiredFiles zipPath.dir fsys)

/-- The `UploadData` bundle assembled by `create_upload_data`. -/
structure UploadData where
  esid : String
  zipFile : FPath
  readmeHtml : Option FPath
  readmeMd : Option FPath
  additionalFiles : List FPath
  deriving Repr, DecidableEq

/-- Model of `UploadData.all_files` (`models/audiomoth.py`): README.md first when
present, then the additional files, then the ZIP archive last. -/
def UploadData.allFiles (d : UploadData) : List FPath :=
  (match d.readmeMd with | some r => [r] | none => []) ++
    d.additionalFiles ++ [d.zipFile]

/-- The per-dataset body of `create_upload_data`: resolve README.html and
README.md directly from the staging directory, and build the additional
file list from the resolved dataset files, excluding
`{"README.html", "README.md", zip_filename}`. -/
def buildUploadData (esid : String) (zipFile : FPath)
    (datasetFiles : List (String × Option FPath)) (fsys : FPath → Bool) :
    UploadData :=
  let dir := zipFile.dir
  let excluded : List String := ["README.html", "README.md", zipFile.name]
  let additionalFiles := datasetFiles.filterMap (fun e =>
    match e.2 with
    | some p => if excluded.contains e.1 then none else some p
    | none => none)
  { esid := esid
    zipFile := zipFile
    readmeHtml :=
      if fsys ⟨dir, "README.html"⟩ then some ⟨dir, "README.html"⟩ else none
    readmeMd :=
      if fsys ⟨dir, "README.md"⟩ then some ⟨dir, "README.md"⟩ else none
    additionalFiles := additionalFiles }

/-- Note that `create_upload_data` constructs the dataset's `UploadData` bundle —
and hence the orchestrator later hands the dataset to the Upload Driver —
only when `find_dataset_files` returned normally; a raised error yields
no bundle and so no driver call for that dataset. -/
def driverInvocations (r : Except PyErr (List (String × Option FPath)))
    (mk : List (String × Option FPath) → UploadData) : List UploadData :=
  match r with
  | .ok dfs => [mk dfs]
  | .error _ => []

/-! ## Upload Driver (`standalone_uploader.py`) -/

/-- One entry of the file-upload initialisation response: the filename
key (absent if the JSON object has no `key` field) and the entry's
content and commit link URLs. -/
structure SlotEntry where
  key : Option String
  contentUrl : String
  commitUrl : String
  deriving Repr, DecidableEq

/-- The HTTP calls issued by `upload_file_to_draft` for one file. -/
inductive UpCall where
  | initPost (key : String)
  | putContent (url : String)
  | commitPost (url : String)
  deriving Repr, DecidableEq

/-- Model of `upload_file_to_draft` given the scripted initialisation response
`entries`: POST the init request; fail if the response lists no entries;
find the entry whose key equals the requested filename (never assume the
first entry); fail if none matches; PUT the bytes to that entry's content
URL and POST its commit URL.  Returns the calls issued and the raised
error, if any (HTTP transport itself scripted as successful here; C5
models transport failures at the driver level). -/
def upload_file_to_draft (fileName : String) (entries : List SlotEntry) :
    List UpCall × Option PyErr :=
  if entries.isEmpty then
    ([UpCall.initPost fileName],
     some (.valueError "Failed to initialize upload"))
  else
    match entries.find? (fun e => e.key == some fileName) with
    | none =>
        ([UpCall.initPost fileName],
         some (.valueError "No matching entry in init response"))
    | some e =>
        ([UpCall.initPost fileName, .putContent e.contentUrl,
          .commitPost e.commitUrl], none)

/-- Scripted outcome of the three-step upload of one file: success, or a
transport/HTTP failure at the init, content-PUT or commit sub-step. -/
inductive FileOutcome where
  | success
  | failAtInit (e : PyErr)
  | failAtPut (e : PyErr)
  | failAtCommit (e : PyErr)
  deriving Repr, DecidableEq

/-- Does this scripted outcome make the file upload raise? -/
def FileOutcome.isFail : FileOutcome → Bool
  | .success => false
  | _ => true

/-- The remote-API calls issued by `upload_to_zenodo` for one dataset.
File sub-step calls carry the index of the file in the upload order. -/
inductive ZCall where
  | createDraft
  | fileInitPost (i : Nat)
  | filePut (i : Nat)
  | fileCommit (i : Nat)
  | reviewCreate
  | reviewSubmit
  | publishPost
  | deleteDraft
  deriving Repr, DecidableEq

/-- The index of the file a call belongs to, if it is a file sub-step. -/
def ZCall.fileIdx : ZCall → Option Nat
  | .fileInitPost i => some i
  | .filePut i => some i
  | .fileCommit i => some i
  | _ => none

/-- The sub-step calls issued for the file at index `i` under a scripted
outcome, with the error raised if a sub-step failed: init always runs;
PUT runs unless init failed; commit runs unless init or PUT failed. -/
def fileCalls (i : Nat) : FileOutcome → List ZCall × Option PyErr
  | .success => ([.fileInitPost i, .filePut i, .fileCommit i], none)
  | .failAtInit e => ([.fileInitPost i], some e)
  | .failAtPut e => ([.fileInitPost i, .filePut i], some e)
  | .failAtCommit e => ([.fileInitPost i, .filePut i, .fileCommit i], some e)

/-- The `for file_path in files` loop of `upload_to_zenodo`: files are
uploaded in order and the first failure raises, stopping the loop. -/
def uploadFilesLoop (i : Nat) : List FileOutcome → List ZCall × Option PyErr
  | [] => ([], none)
  | s :: rest =>
      let c := fileCalls i s
      match c.2 with
      | some err => (c.1, some err)
      | none =>
          let r := uploadFilesLoop (i + 1) rest
          (c.1 ++ r.1, r.2)

/-- Scripted remote behaviour for one `upload_to_zenodo` run.
`createRes` is the draft-creation step: an HTTP error, or the `id` field
of the JSON response (`none` when the response carries no id). -/
structure RemoteScript where
  createRes : Except PyErr (Option String)
  fileOutcomes : List FileOutcome
  reviewCreateRes : Option PyErr
  reviewSubmitRes : Option PyErr
  publishRes : Option PyErr
  deleteRes : Option PyErr
  deriving Repr

/-- The outcome dictionary returned by `upload_to_zenodo`
(`successful`, `error.type`), plus the trace of remote calls issued. -/
structure DriverResult where
  successful : Bool
  errorType : Option String
  calls : List ZCall
  deriving Repr, DecidableEq

/-- Model of `_cleanup_failed_draft`: delete the draft only when cleanup was
requested and a (truthy) record id was obtained; a failing delete is
swallowed, so the call list is the same either way. -/
def cleanupCalls (deleteOnFailure : Bool) (recordId : Option String) :
    List ZCall :=
  if deleteOnFailure && truthy recordId then [.deleteDraft] else []

/-- The `except` block of `upload_to_zenodo`: classify the error, attempt
cleanup, and return a failure result. -/
def driverFailure (deleteOnFailure : Bool) (recordId : Option String)
    (e : PyErr) (calls : List ZCall) : DriverResult :=
  { successful := false
    errorType := some e.typeName
    calls := calls ++ cleanupCalls deleteOnFailure recordId }

/-- The publish tail of `upload_to_zenodo`: publish when `auto_publish`
was requested, else report the draft/review response as the result. -/
def publishPhase (autoPublish deleteOnFailure : Bool)
    (recordId : Option String) (scr : RemoteScript) (base : List ZCall) :
    DriverResult :=
  if autoPublish then
    match scr.publishRes with
    | some e => driverFailure deleteOnFailure recordId e (base ++ [.publishPost])
    | none =>
        { successful := true, errorType := none
          calls := base ++ [.publishPost] }
  else
    { successful := true, errorType := none, calls := base }

/-- The community-review step of `upload_to_zenodo`
(`submit_to_community_review`: create the review request, then submit),
entered only when the config names a community. -/
def reviewPhase (communityId : String) (autoPublish deleteOnFailure : Bool)
    (recordId : Option String) (scr : RemoteScript) (base : List ZCall) :
    DriverResult :=
  if communityId != "" then
    match scr.reviewCreateRes with
    | some e => driverFailure deleteOnFailure recordId e (base ++ [.reviewCreate])
    | none =>
        match scr.reviewSubmitRes with
        | some e =>
            driverFailure deleteOnFailure recordId e
              (base ++ [.reviewCreate, .reviewSubmit])
        | none =>
            publishPhase autoPublish deleteOnFailure recordId scr
              (base ++ [.reviewCreate, .reviewSubmit])
  else
    publishPhase autoPublish deleteOnFailure recordId scr base

/-- Model of `upload_to_zenodo`: create the draft (failing with `ValueError` when
the response has no truthy id), upload each file in order, submit to
community review when configured, publish when requested; on any failure
classify the error and attempt draft cleanup. -/
def upload_to_zenodo (communityId : String)
    (autoPublish deleteOnFailure : Bool) (scr : RemoteScript) : DriverResult :=
  match scr.createRes with
  | .error e => driverFailure deleteOnFailure none e [.createDraft]
  | .ok idField =>
      if truthy idField = false then
        driverFailure deleteOnFailure idField
          (.valueError "No record ID returned from draft creation")
          [.createDraft]
      else
        let fr := uploadFilesLoop 0 scr.fileOutcomes
        match fr.2 with
        | some e =>
            driverFailure deleteOnFailure idField e ([.createDraft] ++ fr.1)
        | none =>
            reviewPhase communityId autoPublish deleteOnFailure idField scr
              ([.createDraft] ++ fr.1)

/-! ## Result Recorder and Orchestrator
(`standalone_tasks.py`: `save_result`, `upload_datasets`) -/

/-- Local side effects of the orchestrator loop: a tracker mark, or one
row appended to a results CSV (`save_result_csv`). -/
inductive OrchEvent where
  | markUploaded (path : String)
  | appendRow (file : String) (esid : String) (success : Bool)
  deriving Repr, DecidableEq

/-- Model of `save_result`: route the result row to the success CSV when the
upload succeeded, else to the failure CSV. -/
def save_result (esid : String) (success : Bool)
    (successFile failureFile : String) : OrchEvent :=
  .appendRow (if success then successFile else failureFile) esid success

/-- The statistics dictionary accumulated by `upload_datasets`
(`{'total_processed', 'successful', 'failed', 'skipped'}`). -/
structure RunStats where
  totalProcessed : Nat
  successful : Nat
  failed : Nat
  skipped : Nat
  deriving Repr, DecidableEq

/-- The initial `stats = {"total_processed": 0, "successful": 0, "failed": 0,
"skipped": 0}` -/
def initStats : RunStats := ⟨0, 0, 0, 0⟩

/-- The outcome dictionary returned by `upload_dataset` for one dataset. -/
structure DatasetOutcome where
  successful : Bool
  errorType : Option String
  errorMessage : Option String
  deriving Repr, DecidableEq

/-- The tail of the `upload_datasets` per-dataset loop body (the
statements after `upload_dataset` returns): increment `total_processed`;
on success increment `successful`, mark the tracker, then save the
success row; on failure increment `failed` and save the failure row. -/
def processOutcome (successFile failureFile : String) (esid : String)
    (zipFile : String) (oc : DatasetOutcome) (stats : RunStats)
    (tr : TrackerState) : RunStats × TrackerState × List OrchEvent :=
  let stats1 := { stats with totalProcessed := stats.totalProcessed + 1 }
  if oc.successful then
    ({ stats1 with successful := stats1.successful + 1 },
     mark_uploaded tr zipFile,
     [.markUploaded zipFile, save_result esid true successFile failureFile])
  else
    ({ stats1 with failed := stats1.failed + 1 },
     tr,
     [save_result esid false successFile failureFile])

/-- The inner loop of `upload_datasets` over the prepared datasets of one
group, threading the statistics and the tracker and collecting the local
side effects in order. -/
def runDatasets (successFile failureFile : String) :
    List (String × String × DatasetOutcome) → RunStats → TrackerState →
      RunStats × TrackerState × List OrchEvent
  | [], stats, tr => (stats, tr, [])
  | (esid, zf, oc) :: rest, stats, tr =>
      let p := processOutcome successFile failureFile esid zf oc stats tr
      let r := runDatasets successFile failureFile rest p.1 p.2.1
      (r.1, r.2.1, p.2.2 ++ r.2.2)

/-- The already-uploaded filter of `get_upload_data`
(`dir_files = [f for f in dir_files if not tracker.is_uploaded(f)]`):
datasets whose archive is marked are dropped before processing, without
touching any counter. -/
def filterNotUploaded (tr : TrackerState)
    (items : List (String × String × DatasetOutcome)) :
    List (String × String × DatasetOutcome) :=
  items.filter (fun it => !(is_uploaded tr it.2.1))

/-- Model of `upload_datasets`: process each configured dataset group with a
single shared tracker; per group, drop the archives already marked (with
the tracker state as of that point of the run), then run the upload loop
over the remainder.  Each group is given as the datasets discovered in
its directory together with the scripted outcome `upload_dataset` would
return for each. -/
def upload_datasets (successFile failureFile : String) (tr : TrackerState) :
    List (List (String × String × DatasetOutcome)) →
      RunStats → RunStats × TrackerState × List OrchEvent
  | [], stats => (stats, tr, [])
  | g :: rest, stats =>
      let remaining := filterNotUploaded tr g
      let r := runDatasets successFile failureFile remaining stats tr
      let r2 := upload_datasets successFile failureFile r.2.1 rest r.1
      (r2.1, r2.2.1, r.2.2 ++ r2.2.2)

/-- Claim C1's ordering relation: event `a` occurs at a strictly earlier
trace position than event `b`. -/
def OccursBefore (a b : OrchEvent) (l : List OrchEvent) : Prop :=
  ∃ i j, i < j ∧ l.get? i = some a ∧ l.get? j = some b

/-! # Theorems -/

/-! ## Upload Tracker lemmas -/

theorem is_uploaded_mark_self (st : TrackerState) (p : String) :
    is_uploaded (mark_uploaded st p) p = true := by
  simp [is_uploaded, mark_uploaded]

theorem is_uploaded_mark_mono (st : TrackerState) (p q : String)
    (h : is_uploaded st q = true) :
    is_uploaded (mark_uploaded st p) q = true := by
  simp [is_uploaded, mark_uploaded] at h ⊢
  exact Or.inr h

theorem is_uploaded_applyMarks_mono (qs : List String) :
    ∀ (st : TrackerState) (p : String), is_uploaded st p = true →
      is_uploaded (applyMarks st qs) p = true := by
  induction qs with
  | nil => intro st p h; exact h
  | cons q qs ih =>
      intro st p h
      exact ih (mark_uploaded st q) p (is_uploaded_mark_mono st q p h)

theorem applyMarks_fileLines_mem (qs : List String) :
    ∀ (st : TrackerState) (l : String), l ∈ st.fileLines →
      l ∈ (applyMarks st qs).fileLines := by
  induction qs with
  | nil => intro st l h; exact h
  | cons q qs ih =>
      intro st l h
      exact ih (mark_uploaded st q) l (by simp [mark_uploaded]; exact Or.inl h)

theorem mem_trackerLoad (L : List String) (p : String)
    (htrim : pyStrip p = p) (hne : p ≠ "") (hmem : p ∈ L) :
    p ∈ trackerLoad L := by
  simp only [trackerLoad, List.mem_filter, List.mem_map]
  refine ⟨⟨p, hmem, htrim⟩, ?_⟩
  simpa using hne

/-! ## Claim C2: marked paths stay marked -/

/-- C2, counterexample to the claim as stated. The claim quantifies over
arbitrary archive paths; for the path `"a "` (trailing space),
`mark_uploaded` writes the raw path to the backing file but `_load`
strips each line on re-read, so a fresh tracker over the same backing
file answers `is_uploaded("a ") = false` even though the in-memory
instance answered `true`. -/
theorem tracker_fresh_reload_counterexample :
    is_uploaded (mark_uploaded (trackerInit []) "a ") "a " = true ∧
    is_uploaded
      (trackerInit (mark_uploaded (trackerInit []) "a ").fileLines) "a " = false := by
  exact ⟨by rfl, by rfl⟩

/-- C2 (amended): for a path `p` that is strip-invariant, non-empty and
newline-free, once `mark_uploaded(p)` runs: (1) `is_uploaded(p)` stays
`true` on the same instance across any further tracker operations;
(2) a fresh `UploadTracker` built over the same backing file also answers
`true`; (3) no tracker operation removes a marked path. -/
theorem tracker_mark_persists (p : String) (lines qs : List String)
    (htrim : pyStrip p = p) (hne : p ≠ "")
    (hnl : p.toList.contains '\n' = false) :
    is_uploaded (applyMarks (mark_uploaded (trackerInit lines) p) qs) p = true ∧
    is_uploaded
      (trackerInit
        (applyMarks (mark_uploaded (trackerInit lines) p) qs).fileLines) p = true ∧
    (∀ (st : TrackerState) (q p2 : String),
       is_uploaded st q = true → is_uploaded (mark_uploaded st p2) q = true) := by
  refine ⟨?_, ?_, fun st q p2 h => is_uploaded_mark_mono st p2 q h⟩
  · exact is_uploaded_applyMarks_mono qs _ p (is_uploaded_mark_self _ p)
  · have hmem : p ∈ (applyMarks (mark_uploaded (trackerInit lines) p) qs).fileLines := by
      apply applyMarks_fileLines_mem
      simp [mark_uploaded]
    have hload := mem_trackerLoad _ p htrim hne hmem
    exact List.elem_eq_true_of_mem hload

theorem tracker_mark_persists_witness :
    is_uploaded
      (applyMarks (mark_uploaded (trackerInit ["x"]) "a") ["b"]) "a" = true ∧
    is_uploaded
      (trackerInit
        (applyMarks (mark_uploaded (trackerInit ["x"]) "a") ["b"]).fileLines)
      "a" = true ∧
    (∀ (st : TrackerState) (q p2 : String),
       is_uploaded st q = true → is_uploaded (mark_uploaded st p2) q = true) :=
  tracker_mark_persists "a" ["x"] ["b"] (by rfl) (by decide) (by rfl)

/-! ## Claim C6: recording-date entries -/

/-- C6, counterexample to the claim as stated. When only the last
recording day is known (`first_recording_day` unset), the claim requires
exactly one date entry carrying that day, but `get_draft_config` emits no
date entry at all (there is no `elif last_day` branch). -/
theorem draft_config_dates_counterexample :
    draftConfigDates none (some "2024-04-08") = [] := by
  rfl

/-- C6 (amended): the date entries of `get_draft_config` satisfy: both
days known and different — one interval entry `first/last`; both known
and equal — one single-day entry; only the first known — one single-day
entry; only the last known, or neither known — no date entries. -/
theorem draft_config_dates_cases (fd ld : Option String) :
    (truthy fd = true → truthy ld = true → fd = ld →
       draftConfigDates fd ld =
         [⟨fd.getD "", "collected", "Day of recording"⟩]) ∧
    (truthy fd = true → truthy ld = true → fd ≠ ld →
       draftConfigDates fd ld =
         [⟨fd.getD "" ++ "/" ++ ld.getD "", "collected", "Recording period"⟩]) ∧
    (truthy fd = true → truthy ld = false →
       draftConfigDates fd ld =
         [⟨fd.getD "", "collected", "Day of recording"⟩]) ∧
    (truthy fd = false → draftConfigDates fd ld = []) := by
  refine ⟨?_, ?_, ?_, ?_⟩
  · intro h1 h2 h3
    subst h3
    simp [draftConfigDates, h1]
  · intro h1 h2 h3
    have hbeq : (fd == ld) = false := beq_eq_false_iff_ne.mpr h3
    simp [draftConfigDates, h1, h2, hbeq]
  · intro h1 h2
    simp [draftConfigDates, h1, h2]
  · intro h1
    simp [draftConfigDates, h1]

theorem draft_config_dates_cases_witness :
    draftConfigDates (some "2024-04-08") (some "2024-04-09") =
      [⟨(some "2024-04-08").getD "" ++ "/" ++ (some "2024-04-09").getD "",
        "collected", "Recording period"⟩] :=
  (draft_config_dates_cases (some "2024-04-08") (some "2024-04-09")).2.1
    (by rfl) (by rfl) (by decide)

/-! ## Claim C3: manifest strictness -/

theorem read_upload_manifest_missing (m : Manifest) (dir : String)
    (fsys : FPath → Bool) (f : String)
    (hcol : m.hasFileNameColumn = true) (hf : f ∈ m.rows)
    (hstrip : pyStrip f = f) (hne : f ≠ "")
    (hmiss : fsys ⟨dir, f⟩ = false) :
    read_upload_manifest m dir fsys =
      .error (.fileNotFound "Missing files listed in manifest") := by
  have hfu : f ∈ (m.rows.map pyStrip).filter (fun g => g != "") :=
    List.mem_filter.mpr ⟨List.mem_map.mpr ⟨f, hf, hstrip⟩, by simpa using hne⟩
  have hfound : ((f, (none : Option FPath))) ∈
      ((m.rows.map pyStrip).filter (fun g => g != "")).map (fun fn =>
        (fn, if fsys ⟨dir, fn⟩ then some (⟨dir, fn⟩ : FPath) else none)) :=
    List.mem_map.mpr ⟨f, hfu, by simp [hmiss]⟩
  have hmissing : f ∈ ((((m.rows.map pyStrip).filter (fun g => g != "")).map
      (fun fn => (fn, if fsys ⟨dir, fn⟩ then some (⟨dir, fn⟩ : FPath)
                      else none))).filter (fun e => e.2 == none)).map
        Prod.fst :=
    List.mem_map.mpr ⟨(f, none), List.mem_filter.mpr ⟨hfound, by simp⟩, rfl⟩
  have hempty := List.isEmpty_eq_false.mpr (List.ne_nil_of_mem hmissing)
  unfold read_upload_manifest
  simp only [hcol, Bool.true_eq_false, if_false, hempty]
  rfl

/-- C3: if a dataset-specific upload manifest exists and lists a filename
`f` (a non-empty, stripped `File Name` cell) that does not resolve to an
existing file in the dataset directory, file-set resolution raises — it
returns an error and no FileSet — so no `UploadData` bundle is built and
the Upload Driver is never invoked for that dataset. -/
theorem manifest_missing_file_blocks_dataset (zipPath : FPath) (m : Manifest)
    (required : List String) (fsys : FPath → Bool) (f : String)
    (hcol : m.hasFileNameColumn = true) (hf : f ∈ m.rows)
    (hstrip : pyStrip f = f) (hne : f ≠ "")
    (hmiss : fsys ⟨zipPath.dir, f⟩ = false) :
    (∃ e : PyErr,
       find_dataset_files zipPath (some m) required fsys = .error e) ∧
    ∀ mk, driverInvocations
      (find_dataset_files zipPath (some m) required fsys) mk = [] := by
  have hres : ∃ e : PyErr,
      find_dataset_files zipPath (some m) required fsys = .error e := by
    unfold find_dataset_files
    by_cases hz : fsys zipPath = false
    · simp only [hz, if_true]
      exact ⟨_, rfl⟩
    · simp only [hz, if_false]
      exact ⟨_, read_upload_manifest_missing m zipPath.dir fsys f hcol hf
        hstrip hne hmiss⟩
  obtain ⟨e, he⟩ := hres
  exact ⟨⟨e, he⟩, fun mk => by simp [driverInvocations, he]⟩

theorem manifest_missing_file_blocks_dataset_witness :
    (∃ e : PyErr,
       find_dataset_files ⟨"/data/ESID_007", "ESID_007.zip"⟩
         (some ⟨true, ["A.zip", "B.csv"]⟩) []
         (fun p => p.name == "ESID_007.zip" || p.name == "A.zip") =
       .error e) ∧
    ∀ mk, driverInvocations
      (find_dataset_files ⟨"/data/ESID_007", "ESID_007.zip"⟩
        (some ⟨true, ["A.zip", "B.csv"]⟩) []
        (fun p => p.name == "ESID_007.zip" || p.name == "A.zip")) mk = [] :=
  manifest_missing_file_blocks_dataset ⟨"/data/ESID_007", "ESID_007.zip"⟩
    ⟨true, ["A.zip", "B.csv"]⟩ []
    (fun p => p.name == "ESID_007.zip" || p.name == "A.zip") "B.csv"
    (by rfl) (by decide) (by rfl) (by decide) (by rfl)

/-! ## Claim C7: default-discovery leniency -/

/-- C7: with no upload manifest, file-set resolution over the configured
default filename list never raises for a missing listed file: it returns
the FileSet in which each missing filename maps to absence, and the
dataset proceeds with whatever subset exists. -/
theorem default_discovery_no_raise (zipPath : FPath) (required : List String)
    (fsys : FPath → Bool) (hzip : fsys zipPath = true) :
    find_dataset_files zipPath none required fsys =
      .ok (defaultDiscovery required zipPath.dir fsys) ∧
    ∀ f ∈ required, fsys ⟨zipPath.dir, f⟩ = false →
      (f, (none : Option FPath)) ∈ defaultDiscovery required zipPath.dir fsys := by
  constructor
  · unfold find_dataset_files
    simp [hzip]
  · intro f hf hmiss
    exact List.mem_map.mpr ⟨f, hf, by simp [hmiss]⟩

theorem default_discovery_no_raise_witness :
    find_dataset_files ⟨"/data/ESID_005", "ESID_005.zip"⟩ none
      ["README.md", "gain.csv"]
      (fun p => p.name == "ESID_005.zip" || p.name == "README.md") =
      .ok (defaultDiscovery ["README.md", "gain.csv"] "/data/ESID_005"
        (fun p => p.name == "ESID_005.zip" || p.name == "README.md")) ∧
    ∀ f ∈ ["README.md", "gain.csv"],
      (fun p : FPath => p.name == "ESID_005.zip" || p.name == "README.md")
        ⟨"/data/ESID_005", f⟩ = false →
      (f, (none : Option FPath)) ∈
        defaultDiscovery ["README.md", "gain.csv"] "/data/ESID_005"
          (fun p => p.name == "ESID_005.zip" || p.name == "README.md") :=
  default_discovery_no_raise ⟨"/data/ESID_005", "ESID_005.zip"⟩
    ["README.md", "gain.csv"]
    (fun p => p.name == "ESID_005.zip" || p.name == "README.md") (by rfl)

/-! ## Claim C8: file-set exclusivity and upload order -/

theorem mapResolve_shape (L : List String) (dir : String)
    (fsys : FPath → Bool) (fn : String) (p : FPath)
    (h : (fn, some p) ∈ L.map (fun g =>
        (g, if fsys ⟨dir, g⟩ then some (⟨dir, g⟩ : FPath) else none))) :
    p = ⟨dir, fn⟩ := by
  obtain ⟨g, hg, heq⟩ := List.mem_map.mp h
  simp only [Prod.mk.injEq] at heq
  obtain ⟨rfl, h2⟩ := heq
  split at h2
  · exact (Option.some.injEq .. ▸ h2).symm ▸ rfl
  · cases h2

theorem resolver_paths_shape (zipPath : FPath) (manifest : Option Manifest)
    (required : List String) (fsys : FPath → Bool)
    (dfs : List (String × Option FPath))
    (hres : find_dataset_files zipPath manifest required fsys = .ok dfs) :
    ∀ fn p, (fn, some p) ∈ dfs → p = ⟨zipPath.dir, fn⟩ := by
  intro fn p hmem
  cases manifest with
  | none =>
      simp only [find_dataset_files] at hres
      split at hres
      · cases hres
      · simp only [Except.ok.injEq] at hres
        subst hres
        exact mapResolve_shape required zipPath.dir fsys fn p hmem
  | some m =>
      simp only [find_dataset_files, read_upload_manifest] at hres
      split at hres
      · cases hres
      · split at hres
        · cases hres
        · split at hres
          · simp only [Except.ok.injEq] at hres
            subst hres
            exact mapResolve_shape _ zipPath.dir fsys fn p hmem
          · cases hres

theorem buildUploadData_additional_mem (esid : String) (zipFile : FPath)
    (dfs : List (String × Option FPath)) (fsys : FPath → Bool) (p : FPath)
    (hp : p ∈ (buildUploadData esid zipFile dfs fsys).additionalFiles) :
    ∃ fn, (fn, some p) ∈ dfs ∧ fn ≠ "README.html" ∧ fn ≠ "README.md" ∧
      fn ≠ zipFile.name := by
  simp only [buildUploadData] at hp
  obtain ⟨⟨fn, op⟩, hmem, hkeep⟩ := List.mem_filterMap.mp hp
  cases op with
  | none => cases hkeep
  | some q =>
      simp only at hkeep
      split at hkeep
      · cases hkeep
      · rename_i hcont
        obtain rfl : q = p := Option.some.injEq .. ▸ hkeep
        refine ⟨fn, hmem, ?_, ?_, ?_⟩ <;>
          · intro hfn
            apply hcont
            simp [hfn, List.contains]

theorem additional_names_sublist (excluded : List String) :
    ∀ (dfs : List (String × Option FPath)),
      (∀ fn p, (fn, some p) ∈ dfs → p.name = fn) →
      List.Sublist
        ((dfs.filterMap (fun e =>
            match e.2 with
            | some p => if excluded.contains e.1 then none else some p
            | none => none)).map FPath.name)
        (dfs.map Prod.fst) := by
  intro dfs
  induction dfs with
  | nil => intro _; simp
  | cons e rest ih =>
      intro hshape
      obtain ⟨fn, op⟩ := e
      have hrest := ih (fun g q hq => hshape g q (List.mem_cons_of_mem _ hq))
      cases op with
      | none =>
          simpa using hrest.cons fn
      | some q =>
          by_cases hc : fn ∈ excluded
          · simpa [List.filterMap_cons, hc] using hrest.cons fn
          · have hqname : q.name = fn :=
              hshape fn q (List.mem_cons_self _ _)
            simpa [List.filterMap_cons, hc, hqname] using hrest.cons₂ fn

/-- C8: for every assembled upload bundle whose dataset files come from
file-set resolution (each resolved path is dataset-dir/filename, with
dict-unique filenames) and whose archive is not itself named README.md:
the description-source file README.html and the markdown companion
README.md never appear in the generic additional-files list, no filename
appears twice in the final upload order, and the primary ZIP archive is
the last entry of the file list handed to the Upload Driver. -/
theorem upload_bundle_files_ok (esid : String) (zipFile : FPath)
    (manifest : Option Manifest) (required : List String)
    (fsys : FPath → Bool) (dfs : List (String × Option FPath))
    (hres : find_dataset_files zipFile manifest required fsys = .ok dfs)
    (hnd : (dfs.map Prod.fst).Nodup)
    (hzm : zipFile.name ≠ "README.md") :
    (∀ p ∈ (buildUploadData esid zipFile dfs fsys).additionalFiles,
       p.name ≠ "README.html" ∧ p.name ≠ "README.md") ∧
    ((buildUploadData esid zipFile dfs fsys).allFiles.map FPath.name).Nodup ∧
    (buildUploadData esid zipFile dfs fsys).allFiles.getLast? =
      some zipFile := by
  have hshape := resolver_paths_shape zipFile manifest required fsys dfs hres
  have hshapeName : ∀ fn p, (fn, some p) ∈ dfs → p.name = fn := by
    intro fn p h
    rw [hshape fn p h]
  have hadd : ∀ p ∈ (buildUploadData esid zipFile dfs fsys).additionalFiles,
      p.name ≠ "README.html" ∧ p.name ≠ "README.md" ∧
        p.name ≠ zipFile.name := by
    intro p hp
    obtain ⟨fn, hmem, h1, h2, h3⟩ :=
      buildUploadData_additional_mem esid zipFile dfs fsys p hp
    have hn := hshapeName fn p hmem
    exact ⟨by rw [hn]; exact h1, by rw [hn]; exact h2, by rw [hn]; exact h3⟩
  have hAnodup :
      (((buildUploadData esid zipFile dfs fsys).additionalFiles).map
        FPath.name).Nodup := by
    have hsub := additional_names_sublist
      ["README.html", "README.md", zipFile.name] dfs hshapeName
    exact List.Nodup.sublist hsub hnd
  have hAname : ∀ a ∈ (((buildUploadData esid zipFile dfs
      fsys).additionalFiles).map FPath.name),
      a ≠ "README.html" ∧ a ≠ "README.md" ∧ a ≠ zipFile.name := by
    intro a ha
    obtain ⟨p, hp, rfl⟩ := List.mem_map.mp ha
    exact hadd p hp
  have htail : ((((buildUploadData esid zipFile dfs
      fsys).additionalFiles).map FPath.name) ++ [zipFile.name]).Nodup := by
    rw [List.nodup_append]
    refine ⟨hAnodup, List.nodup_singleton _, ?_⟩
    intro a ha hb
    rw [List.mem_singleton] at hb
    exact (hAname a ha).2.2 hb
  refine ⟨fun p hp => ⟨(hadd p hp).1, (hadd p hp).2.1⟩, ?_, ?_⟩
  · by_cases hmd : fsys ⟨zipFile.dir, "README.md"⟩ = true
    · have hrm : (buildUploadData esid zipFile dfs fsys).readmeMd =
          some ⟨zipFile.dir, "README.md"⟩ := by
        simp [buildUploadData, hmd]
      simp only [UploadData.allFiles, hrm, List.map_append, List.map_cons,
        List.map_nil, List.singleton_append]
      rw [List.cons_append, List.nodup_cons]
      constructor
      · intro hmem
        rcases List.mem_append.mp hmem with h | h
        · exact (hAname _ h).2.1 rfl
        · rw [List.mem_singleton] at h
          exact hzm h.symm
      · exact htail
    · have hrm : (buildUploadData esid zipFile dfs fsys).readmeMd = none := by
        simp [buildUploadData, hmd]
      simp only [UploadData.allFiles, hrm, List.map_append, List.map_cons,
        List.map_nil, List.nil_append]
      exact htail
  · simp only [UploadData.allFiles]
    exact List.getLast?_concat _

theorem upload_bundle_files_ok_witness :
    (∀ p ∈ (buildUploadData "005" ⟨"/d", "ESID_005.zip"⟩
        (defaultDiscovery ["README.md", "gain.csv"] "/d" (fun _ => true))
        (fun _ => true)).additionalFiles,
       p.name ≠ "README.html" ∧ p.name ≠ "README.md") ∧
    ((buildUploadData "005" ⟨"/d", "ESID_005.zip"⟩
        (defaultDiscovery ["README.md", "gain.csv"] "/d" (fun _ => true))
        (fun _ => true)).allFiles.map FPath.name).Nodup ∧
    (buildUploadData "005" ⟨"/d", "ESID_005.zip"⟩
        (defaultDiscovery ["README.md", "gain.csv"] "/d" (fun _ => true))
        (fun _ => true)).allFiles.getLast? = some ⟨"/d", "ESID_005.zip"⟩ :=
  upload_bundle_files_ok "005" ⟨"/d", "ESID_005.zip"⟩ none
    ["README.md", "gain.csv"] (fun _ => true)
    (defaultDiscovery ["README.md", "gain.csv"] "/d" (fun _ => true))
    (by rfl) (by decide) (by decide)

/-! ## Claim C4: upload-slot matching by filename key -/

/-- C4: for every per-file upload, when the initialisation response lists
an entry whose key equals the requested filename (and that entry is the
unique such one), the content PUT is sent to that entry's content URL and
the commit to that same entry's commit URL — the first entry is never
used when its key does not match; and when no entry's key matches, the
upload fails with an error instead of using any entry (no PUT and no
commit call is made). -/
theorem slot_matching (fileName : String) (entries : List SlotEntry) :
    (∀ e ∈ entries, e.key = some fileName →
       (∀ e2 ∈ entries, e2.key = some fileName → e2 = e) →
       upload_file_to_draft fileName entries =
         ([.initPost fileName, .putContent e.contentUrl,
           .commitPost e.commitUrl], none)) ∧
    ((∀ e ∈ entries, e.key ≠ some fileName) →
       ∃ err, upload_file_to_draft fileName entries =
         ([.initPost fileName], some err)) := by
  constructor
  · intro e he hkey huniq
    have hne : entries.isEmpty = false := by
      cases entries with
      | nil => cases he
      | cons a l => rfl
    have hfind : entries.find? (fun e2 => e2.key == some fileName) = some e := by
      cases hf : entries.find? (fun e2 => e2.key == some fileName) with
      | none =>
          exfalso
          have := List.find?_eq_none.mp hf e he
          simp only [beq_iff_eq] at this
          exact this hkey
      | some e2 =>
          have hkey2 : e2.key = some fileName := by
            have := List.find?_some hf
            simpa only [beq_iff_eq] using this
          have hmem2 : e2 ∈ entries := List.mem_of_find?_eq_some hf
          rw [huniq e2 hmem2 hkey2]
    unfold upload_file_to_draft
    rw [hne, hfind]
    rfl
  · intro hnone
    cases entries with
    | nil => exact ⟨_, rfl⟩
    | cons a l =>
        have hfind : (a :: l).find? (fun e2 => e2.key == some fileName) = none :=
          List.find?_eq_none.mpr (fun e he => by
            simp only [beq_iff_eq]
            exact hnone e he)
        refine ⟨.valueError "No matching entry in init response", ?_⟩
        unfold upload_file_to_draft
        rw [hfind]
        rfl

theorem slot_matching_witness :
    upload_file_to_draft "B.csv"
      [⟨some "other.txt", "u1", "c1"⟩, ⟨some "B.csv", "u2", "c2"⟩] =
      ([.initPost "B.csv", .putContent "u2", .commitPost "c2"], none) :=
  (slot_matching "B.csv"
      [⟨some "other.txt", "u1", "c1"⟩, ⟨some "B.csv", "u2", "c2"⟩]).1
    ⟨some "B.csv", "u2", "c2"⟩ (by decide) (by decide) (by decide)

/-! ## Claim C5: atomic-sequence ordering and cleanup -/

theorem uploadFilesLoop_stops (pre : List FileOutcome) :
    ∀ (i : Nat) (o : FileOutcome) (post : List FileOutcome),
      (∀ x ∈ pre, x = .success) → o.isFail = true →
      ∃ e, (uploadFilesLoop i (pre ++ o :: post)).2 = some e ∧
        ∀ c ∈ (uploadFilesLoop i (pre ++ o :: post)).1,
          ∃ j, c.fileIdx = some j ∧ j ≤ i + pre.length := by
  induction pre with
  | nil =>
      intro i o post _ hfail
      cases o with
      | success => simp [FileOutcome.isFail] at hfail
      | failAtInit e =>
          refine ⟨e, by simp [uploadFilesLoop, fileCalls], ?_⟩
          intro c hc
          simp only [List.nil_append, uploadFilesLoop, fileCalls,
            List.mem_singleton] at hc
          subst hc
          exact ⟨i, rfl, by omega⟩
      | failAtPut e =>
          refine ⟨e, by simp [uploadFilesLoop, fileCalls], ?_⟩
          intro c hc
          simp only [List.nil_append, uploadFilesLoop, fileCalls,
            List.mem_cons, List.mem_singleton, List.not_mem_nil,
            or_false] at hc
          rcases hc with rfl | rfl
          · exact ⟨i, rfl, by omega⟩
          · exact ⟨i, rfl, by omega⟩
      | failAtCommit e =>
          refine ⟨e, by simp [uploadFilesLoop, fileCalls], ?_⟩
          intro c hc
          simp only [List.nil_append, uploadFilesLoop, fileCalls,
            List.mem_cons, List.mem_singleton, List.not_mem_nil,
            or_false] at hc
          rcases hc with rfl | rfl | rfl
          · exact ⟨i, rfl, by omega⟩
          · exact ⟨i, rfl, by omega⟩
          · exact ⟨i, rfl, by omega⟩
  | cons x rest ih =>
      intro i o post hpre hfail
      have hx : x = .success := hpre x (List.mem_cons_self _ _)
      subst hx
      obtain ⟨e, he, hb⟩ :=
        ih (i + 1) o post (fun y hy => hpre y (List.mem_cons_of_mem _ hy)) hfail
      refine ⟨e, ?_, ?_⟩
      · simpa only [List.cons_append, uploadFilesLoop, fileCalls] using he
      · intro c hc
        simp only [List.cons_append, uploadFilesLoop, fileCalls,
          List.mem_append, List.mem_cons, List.mem_singleton,
          List.not_mem_nil, or_false, false_or] at hc
        rcases hc with rfl | rfl | rfl | hc
        · exact ⟨i, rfl, by simp [List.length_cons]⟩
        · exact ⟨i, rfl, by simp [List.length_cons]⟩
        · exact ⟨i, rfl, by simp [List.length_cons]⟩
        · obtain ⟨j, hj, hjb⟩ := hb c hc
          refine ⟨j, hj, ?_⟩
          simp only [List.length_cons]
          omega

/-- C5: for a dataset upload whose draft creation succeeded with a truthy
id, if the upload of the file at position `pre.length` fails at any of
its init/transfer/commit sub-steps (all earlier files having succeeded),
then the overall outcome is a failure; no init, transfer, or commit call
is made for any later file; no review-submission or publish call is made;
and exactly one delete-draft call is attempted if and only if
failure-cleanup was requested (the scripted delete outcome — including a
failing delete — never changes the failure outcome, since the result does
not depend on it). -/
theorem atomic_sequence (communityId : String)
    (autoPublish deleteOnFailure : Bool) (scr : RemoteScript)
    (idf : Option String) (pre post : List FileOutcome) (o : FileOutcome)
    (hcreate : scr.createRes = .ok idf) (hid : truthy idf = true)
    (hfiles : scr.fileOutcomes = pre ++ o :: post)
    (hpre : ∀ x ∈ pre, x = .success) (hfail : o.isFail = true) :
    (upload_to_zenodo communityId autoPublish deleteOnFailure scr).successful
      = false ∧
    (∀ j, pre.length < j →
       ZCall.fileInitPost j ∉
         (upload_to_zenodo communityId autoPublish deleteOnFailure scr).calls ∧
       ZCall.filePut j ∉
         (upload_to_zenodo communityId autoPublish deleteOnFailure scr).calls ∧
       ZCall.fileCommit j ∉
         (upload_to_zenodo communityId autoPublish deleteOnFailure scr).calls) ∧
    ZCall.reviewCreate ∉
      (upload_to_zenodo communityId autoPublish deleteOnFailure scr).calls ∧
    ZCall.reviewSubmit ∉
      (upload_to_zenodo communityId autoPublish deleteOnFailure scr).calls ∧
    ZCall.publishPost ∉
      (upload_to_zenodo communityId autoPublish deleteOnFailure scr).calls ∧
    (upload_to_zenodo communityId autoPublish
        deleteOnFailure scr).calls.count ZCall.deleteDraft =
      (if deleteOnFailure then 1 else 0) := by
  obtain ⟨e, he, hbound⟩ := uploadFilesLoop_stops pre 0 o post hpre hfail
  have hres : upload_to_zenodo communityId autoPublish deleteOnFailure scr =
      driverFailure deleteOnFailure idf e
        ([ZCall.createDraft] ++ (uploadFilesLoop 0 (pre ++ o :: post)).1) := by
    unfold upload_to_zenodo
    rw [hcreate]
    simp only [hid, hfiles, he]
    exact if_neg (by simp)
  have hmemL : ∀ c ∈ (uploadFilesLoop 0 (pre ++ o :: post)).1,
      ∃ j, c.fileIdx = some j ∧ j ≤ pre.length := by
    intro c hc
    obtain ⟨j, hj, hjb⟩ := hbound c hc
    exact ⟨j, hj, by omega⟩
  have hclass : ∀ c ∈ (upload_to_zenodo communityId autoPublish
      deleteOnFailure scr).calls,
      c = ZCall.createDraft ∨
      (∃ j, c.fileIdx = some j ∧ j ≤ pre.length) ∨
      c = ZCall.deleteDraft := by
    intro c hc
    rw [hres] at hc
    simp only [driverFailure, cleanupCalls, List.mem_append,
      List.mem_cons, List.mem_singleton, List.not_mem_nil, or_false,
      false_or] at hc
    rcases hc with (rfl | hc) | hc
    · exact Or.inl rfl
    · exact Or.inr (Or.inl (hmemL c hc))
    · right; right
      rcases hd : (deleteOnFailure && truthy idf) with _ | _
      · rw [hd] at hc
        simp at hc
      · rw [hd] at hc
        simpa using hc
  refine ⟨by rw [hres]; rfl, ?_, ?_, ?_, ?_, ?_⟩
  · intro j hj
    refine ⟨?_, ?_, ?_⟩ <;>
      · intro hmem
        rcases hclass _ hmem with h | ⟨j2, hj2, hjb⟩ | h
        · cases h
        · simp only [ZCall.fileIdx, Option.some.injEq] at hj2
          omega
        · cases h
  · intro hmem
    rcases hclass _ hmem with h | ⟨j2, hj2, _⟩ | h
    · cases h
    · simp [ZCall.fileIdx] at hj2
    · cases h
  · intro hmem
    rcases hclass _ hmem with h | ⟨j2, hj2, _⟩ | h
    · cases h
    · simp [ZCall.fileIdx] at hj2
    · cases h
  · intro hmem
    rcases hclass _ hmem with h | ⟨j2, hj2, _⟩ | h
    · cases h
    · simp [ZCall.fileIdx] at hj2
    · cases h
  · rw [hres]
    simp only [driverFailure, cleanupCalls, hid, Bool.and_true,
      List.count_append]
    have hL : (uploadFilesLoop 0 (pre ++ o :: post)).1.count
        ZCall.deleteDraft = 0 := by
      rw [List.count_eq_zero]
      intro hmem
      obtain ⟨j, hj, _⟩ := hmemL _ hmem
      simp [ZCall.fileIdx] at hj
    rcases deleteOnFailure with _ | _
    · simp [hL]
    · simp [hL]

theorem atomic_sequence_witness :
    (upload_to_zenodo "esc-community" true true
      ⟨.ok (some "42"),
       [.success, .failAtCommit (.httpError "HTTP 400"), .success],
       none, none, none, none⟩).successful = false ∧
    ZCall.fileInitPost 2 ∉ (upload_to_zenodo "esc-community" true true
      ⟨.ok (some "42"),
       [.success, .failAtCommit (.httpError "HTTP 400"), .success],
       none, none, none, none⟩).calls ∧
    ZCall.fileCommit 2 ∉ (upload_to_zenodo "esc-community" true true
      ⟨.ok (some "42"),
       [.success, .failAtCommit (.httpError "HTTP 400"), .success],
       none, none, none, none⟩).calls ∧
    ZCall.reviewCreate ∉ (upload_to_zenodo "esc-community" true true
      ⟨.ok (some "42"),
       [.success, .failAtCommit (.httpError "HTTP 400"), .success],
       none, none, none, none⟩).calls ∧
    ZCall.publishPost ∉ (upload_to_zenodo "esc-community" true true
      ⟨.ok (some "42"),
       [.success, .failAtCommit (.httpError "HTTP 400"), .success],
       none, none, none, none⟩).calls ∧
    (upload_to_zenodo "esc-community" true true
      ⟨.ok (some "42"),
       [.success, .failAtCommit (.httpError "HTTP 400"), .success],
       none, none, none, none⟩).calls.count ZCall.deleteDraft = 1 := by
  have h := atomic_sequence "esc-community" true true
    ⟨.ok (some "42"),
     [.success, .failAtCommit (.httpError "HTTP 400"), .success],
     none, none, none, none⟩
    (some "42") [.success] [.success] (.failAtCommit (.httpError "HTTP 400"))
    rfl rfl rfl (by decide) rfl
  exact ⟨h.1, (h.2.1 2 (by decide)).1, (h.2.1 2 (by decide)).2.2,
    h.2.2.1, h.2.2.2.2.1, h.2.2.2.2.2⟩

/-! ## Claim C9: draft-creation response without an id -/

/-- C9, counterexample to the claim as stated. When the draft-creation
response carries no draft identifier, the returned outcome's error type
is `"ValueError"` (from `raise ValueError("No record ID returned from
draft creation")`, classified by `type(exc).__name__`), not `NoDraftId`
— no error kind named `NoDraftId` exists anywhere in the code. -/
theorem no_draft_id_counterexample :
    (upload_to_zenodo "" false true
      ⟨.ok none, [], none, none, none, none⟩).errorType =
        some "ValueError" ∧
    some "ValueError" ≠ some "NoDraftId" ∧
    (upload_to_zenodo "" false true
      ⟨.ok none, [], none, none, none, none⟩).calls = [.createDraft] := by
  exact ⟨rfl, by decide, rfl⟩

/-- C9 (amended): if the draft-creation response contains no (truthy)
draft identifier, the dataset upload fails — with error type
`"ValueError"` and message "No record ID returned from draft creation" —
and no file-upload, review, or publish call is made for that dataset (nor
any delete: no draft id was obtained, so cleanup is skipped even when
requested). -/
theorem no_draft_id_fails (communityId : String)
    (autoPublish deleteOnFailure : Bool) (scr : RemoteScript)
    (idf : Option String) (hcreate : scr.createRes = .ok idf)
    (hid : truthy idf = false) :
    upload_to_zenodo communityId autoPublish deleteOnFailure scr =
      { successful := false, errorType := some "ValueError",
        calls := [.createDraft] } := by
  unfold upload_to_zenodo
  rw [hcreate]
  simp [hid, driverFailure, cleanupCalls, PyErr.typeName]

theorem no_draft_id_fails_witness :
    upload_to_zenodo "esc-community" true true
      ⟨.ok none, [.success], none, none, none, none⟩ =
      { successful := false, errorType := some "ValueError",
        calls := [.createDraft] } :=
  no_draft_id_fails "esc-community" true true
    ⟨.ok none, [.success], none, none, none, none⟩ none rfl rfl

/-! ## Claim C1: tracker mark vs. success-row ordering -/

/-- C1, counterexample to the claim as stated. In the orchestrator's
success path the trace of local side effects for a successful dataset is
`[markUploaded zip, appendRow successFile esid true]`: `mark_uploaded` is
invoked BEFORE the success row is appended to the success CSV, so the
claimed ordering (row strictly before mark) does not hold. -/
theorem mark_after_save_counterexample :
    (runDatasets "s.csv" "f.csv"
        [("005", "/data/ESID_005.zip", ⟨true, none, none⟩)]
        initStats (trackerInit [])).2.2 =
      [.markUploaded "/data/ESID_005.zip",
       .appendRow "s.csv" "005" true] ∧
    ¬ OccursBefore (.appendRow "s.csv" "005" true)
        (.markUploaded "/data/ESID_005.zip")
        (runDatasets "s.csv" "f.csv"
          [("005", "/data/ESID_005.zip", ⟨true, none, none⟩)]
          initStats (trackerInit [])).2.2 := by
  refine ⟨rfl, ?_⟩
  rintro ⟨i, j, hij, hi, hj⟩
  have htr : (runDatasets "s.csv" "f.csv"
      [("005", "/data/ESID_005.zip", ⟨true, none, none⟩)]
      initStats (trackerInit [])).2.2 =
      [.markUploaded "/data/ESID_005.zip",
       .appendRow "s.csv" "005" true] := rfl
  rw [htr] at hi hj
  have hi2 : i = 1 := by
    rcases i with _ | _ | i
    · exact absurd hi (by decide)
    · rfl
    · simp [List.get?] at hi
  subst hi2
  rcases j with _ | _ | j
  · omega
  · omega
  · simp [List.get?] at hj

theorem runDatasets_get?_append (L1 L2 : List OrchEvent) (n : Nat) :
    (L1 ++ L2).get? (L1.length + n) = L2.get? n := by
  rw [List.get?_append_right (Nat.le_add_right _ _), Nat.add_sub_cancel_left]

/-- C1 (amended): in the orchestrator's success path, for every dataset
whose Upload Driver outcome is successful, the Upload Tracker's
`mark_uploaded` call on the dataset's archive path happens immediately
BEFORE the success row is appended to the success results CSV (the
reverse of the claimed order): the trace contains the adjacent pair
`markUploaded zip` then `appendRow successFile esid true`. -/
theorem mark_then_save_adjacent (sf ff : String) :
    ∀ (items : List (String × String × DatasetOutcome)) (stats : RunStats)
      (tr : TrackerState) (k : Nat) (esid zf : String) (oc : DatasetOutcome),
      items.get? k = some (esid, zf, oc) → oc.successful = true →
      ∃ i, (runDatasets sf ff items stats tr).2.2.get? i =
            some (.markUploaded zf) ∧
           (runDatasets sf ff items stats tr).2.2.get? (i + 1) =
            some (.appendRow sf esid true) := by
  intro items
  induction items with
  | nil =>
      intro stats tr k esid zf oc hk
      simp [List.get?] at hk
  | cons it rest ih =>
      intro stats tr k esid zf oc hk hsucc
      obtain ⟨e1, z1, o1⟩ := it
      rcases k with _ | k
      · have heq : (e1, z1, o1) = (esid, zf, oc) := by simpa using hk
        obtain ⟨rfl, rfl, rfl⟩ := Prod.mk.injEq .. ▸ (by
          injection heq with h1 h23
          injection h23 with h2 h3
          exact ⟨h1, h2, h3⟩ : e1 = esid ∧ z1 = zf ∧ o1 = oc)
        refine ⟨0, ?_, ?_⟩
        · simp [runDatasets, processOutcome, hsucc, save_result]
        · simp [runDatasets, processOutcome, hsucc, save_result, List.get?]
      · obtain ⟨i, h1, h2⟩ := ih
          (processOutcome sf ff e1 z1 o1 stats tr).1
          (processOutcome sf ff e1 z1 o1 stats tr).2.1
          k esid zf oc (by simpa using hk) hsucc
        refine ⟨(processOutcome sf ff e1 z1 o1 stats tr).2.2.length + i,
          ?_, ?_⟩
        · simpa only [runDatasets, runDatasets_get?_append] using h1
        · rw [Nat.add_assoc]
          simpa only [runDatasets, runDatasets_get?_append] using h2

theorem mark_then_save_adjacent_witness :
    ∃ i, (runDatasets "s.csv" "f.csv"
        [("005", "/data/ESID_005.zip", ⟨true, none, none⟩),
         ("006", "/data/ESID_006.zip", ⟨false, some "HTTPError", none⟩)]
        initStats (trackerInit [])).2.2.get? i =
          some (.markUploaded "/data/ESID_005.zip") ∧
       (runDatasets "s.csv" "f.csv"
        [("005", "/data/ESID_005.zip", ⟨true, none, none⟩),
         ("006", "/data/ESID_006.zip", ⟨false, some "HTTPError", none⟩)]
        initStats (trackerInit [])).2.2.get? (i + 1) =
          some (.appendRow "s.csv" "005" true) :=
  mark_then_save_adjacent "s.csv" "f.csv"
    [("005", "/data/ESID_005.zip", ⟨true, none, none⟩),
     ("006", "/data/ESID_006.zip", ⟨false, some "HTTPError", none⟩)]
    initStats (trackerInit []) 0 "005" "/data/ESID_005.zip"
    ⟨true, none, none⟩ (by rfl) (by rfl)

/-! ## Claim C10: the returned skipped count -/

theorem runDatasets_stats (sf ff : String) :
    ∀ (items : List (String × String × DatasetOutcome)) (stats : RunStats)
      (tr : TrackerState),
      (runDatasets sf ff items stats tr).1.skipped = stats.skipped ∧
      (runDatasets sf ff items stats tr).1.totalProcessed =
        stats.totalProcessed + items.length ∧
      (runDatasets sf ff items stats tr).1.successful +
          (runDatasets sf ff items stats tr).1.failed =
        stats.successful + stats.failed + items.length := by
  intro items
  induction items with
  | nil =>
      intro stats tr
      exact ⟨rfl, rfl, rfl⟩
  | cons it rest ih =>
      intro stats tr
      obtain ⟨e1, z1, o1⟩ := it
      obtain ⟨ih1, ih2, ih3⟩ := ih
        (processOutcome sf ff e1 z1 o1 stats tr).1
        (processOutcome sf ff e1 z1 o1 stats tr).2.1
      by_cases hs : o1.successful = true
      · refine ⟨?_, ?_, ?_⟩
        · simp only [runDatasets]
          rw [ih1]
          simp [processOutcome, hs]
        · simp only [runDatasets, List.length_cons]
          rw [ih2]
          simp only [processOutcome, hs, if_true]
          omega
        · simp only [runDatasets, List.length_cons]
          rw [ih3]
          simp only [processOutcome, hs, if_true]
          omega
      · refine ⟨?_, ?_, ?_⟩
        · simp only [runDatasets]
          rw [ih1]
          simp [processOutcome, hs]
        · simp only [runDatasets, List.length_cons]
          rw [ih2]
          simp [processOutcome, hs]
          omega
        · simp only [runDatasets, List.length_cons]
          rw [ih3]
          simp [processOutcome, hs]
          omega

theorem upload_datasets_stats_core (sf ff : String) :
    ∀ (groups : List (List (String × String × DatasetOutcome)))
      (tr : TrackerState) (stats : RunStats),
      (upload_datasets sf ff tr groups stats).1.skipped = stats.skipped ∧
      (upload_datasets sf ff tr groups stats).1.totalProcessed +
          stats.successful + stats.failed =
        (upload_datasets sf ff tr groups stats).1.successful +
          (upload_datasets sf ff tr groups stats).1.failed +
            stats.totalProcessed := by
  intro groups
  induction groups with
  | nil =>
      intro tr stats
      refine ⟨rfl, ?_⟩
      simp only [upload_datasets]
      omega
  | cons g rest ih =>
      intro tr stats
      obtain ⟨h1, h2, h3⟩ :=
        runDatasets_stats sf ff (filterNotUploaded tr g) stats tr
      obtain ⟨ih1, ih2⟩ := ih
        (runDatasets sf ff (filterNotUploaded tr g) stats tr).2.1
        (runDatasets sf ff (filterNotUploaded tr g) stats tr).1
      refine ⟨?_, ?_⟩
      · simp only [upload_datasets]
        rw [ih1, h1]
      · simp only [upload_datasets]
        omega

/-- C10: for every run of the orchestrator `upload_datasets`, the
returned statistics dictionary's `skipped` count is `0` — in fact no loop
iteration ever touches the `skipped` field — and every processed dataset
is counted as either successful or failed, so the datasets filtered out
as already uploaded during discovery are counted in none of the returned
counts. -/
theorem upload_datasets_skipped_zero (sf ff : String)
    (groups : List (List (String × String × DatasetOutcome)))
    (tr : TrackerState) :
    (upload_datasets sf ff tr groups initStats).1.skipped = 0 ∧
    (∀ stats : RunStats,
       (upload_datasets sf ff tr groups stats).1.skipped = stats.skipped) ∧
    (upload_datasets sf ff tr groups initStats).1.totalProcessed =
      (upload_datasets sf ff tr groups initStats).1.successful +
        (upload_datasets sf ff tr groups initStats).1.failed := by
  refine ⟨(upload_datasets_stats_core sf ff groups tr initStats).1,
    fun stats => (upload_datasets_stats_core sf ff groups tr stats).1, ?_⟩
  have h := (upload_datasets_stats_core sf ff groups tr initStats).2
  have e1 : initStats.totalProcessed = 0 := rfl
  have e2 : initStats.successful = 0 := rfl
  have e3 : initStats.failed = 0 := rfl
  omega

theorem upload_datasets_skipped_zero_witness :
    (upload_datasets "s.csv" "f.csv" (trackerInit ["/data/ESID_004.zip"])
        [[("004", "/data/ESID_004.zip", ⟨true, none, none⟩),
          ("005", "/data/ESID_005.zip", ⟨true, none, none⟩)],
         [("006", "/data/ESID_006.zip", ⟨false, some "HTTPError", none⟩)]]
        initStats).1.skipped = 0 ∧
    (∀ stats : RunStats,
       (upload_datasets "s.csv" "f.csv" (trackerInit ["/data/ESID_004.zip"])
        [[("004", "/data/ESID_004.zip", ⟨true, none, none⟩),
          ("005", "/data/ESID_005.zip", ⟨true, none, none⟩)],
         [("006", "/data/ESID_006.zip", ⟨false, some "HTTPError", none⟩)]]
        stats).1.skipped = stats.skipped) ∧
    (upload_datasets "s.csv" "f.csv" (trackerInit ["/data/ESID_004.zip"])
        [[("004", "/data/ESID_004.zip", ⟨true, none, none⟩),
          ("005", "/data/ESID_005.zip", ⟨true, none, none⟩)],
         [("006", "/data/ESID_006.zip", ⟨false, some "HTTPError", none⟩)]]
        initStats).1.totalProcessed =
      (upload_datasets "s.csv" "f.csv" (trackerInit ["/data/ESID_004.zip"])
        [[("004", "/data/ESID_004.zip", ⟨true, none, none⟩),
          ("005", "/data/ESID_005.zip", ⟨true, none, none⟩)],
         [("006", "/data/ESID_006.zip", ⟨false, some "HTTPError", none⟩)]]
        initStats).1.successful +
        (upload_datasets "s.csv" "f.csv" (trackerInit ["/data/ESID_004.zip"])
        [[("004", "/data/ESID_004.zip", ⟨true, none, none⟩),
          ("005", "/data/ESID_005.zip", ⟨true, none, none⟩)],
         [("006", "/data/ESID_006.zip", ⟨false, some "HTTPError", none⟩)]]
        initStats).1.failed :=
  upload_datasets_skipped_zero "s.csv" "f.csv"
    [[("004", "/data/ESID_004.zip", ⟨true, none, none⟩),
      ("005", "/data/ESID_005.zip", ⟨true, none, none⟩)],
     [("006", "/data/ESID_006.zip", ⟨false, some "HTTPError", none⟩)]]
    (trackerInit ["/data/ESID_004.zip"])
